import Mathlib

/-!
Verification development for the user-account API module
(`openedx/core/djangoapps/user_api/accounts/api.py`).

The module is embedded shallowly: each Python function becomes a Lean
function; the mutable Django object stores become an explicit `Store`
value threaded through the operations; Python exceptions become
explicit result constructors (`Except` / dedicated result types).
Collaborators that live outside the embedded module (serializers, the
preferences subsystem, the student email-change workflow, platform
settings) are parameters gathered in environment structures, with their
contracts taken from the specification.
-/

namespace AccountsApi

/-- A Python value as it can appear as a validator input or as a value in
an update dictionary.  `str` is a well-formed text string (a `unicode`
value, or a byte string that decodes); `bytes len` is a byte string of
the given length that is NOT decodable (it passes the `basestring`
type check but fails `unicode(data)`); `int` is a non-string value;
`strList` is a list of plain strings (used for language proficiencies). -/
inductive PyVal where
  | str (s : String)
  | bytes (len : Nat)
  | int (n : Int)
  | strList (ss : List String)
  deriving Repr, DecidableEq

/-- One entry of a field-error map: developer-facing and user-facing text. -/
structure FieldErr where
  developer_message : String
  user_message : String
  deriving Repr, DecidableEq

/-- A Python dictionary with string keys, as an association list. -/
abbrev Dict (α : Type) := List (String × α)

/-- Keys of a dictionary. -/
def Dict.keys {α : Type} (d : Dict α) : List String := d.map Prod.fst

/-- `k in d` for a Python dictionary. -/
def Dict.hasKey {α : Type} (d : Dict α) (k : String) : Bool :=
  d.any (fun p => p.1 = k)

/-- `d[k]` (first binding; keys of a Python dict are unique). -/
def Dict.get? {α : Type} (d : Dict α) (k : String) : Option α :=
  (d.find? (fun p => p.1 = k)).map Prod.snd

/-- `del d[k]` (removes every binding of the key). -/
def Dict.eraseKey {α : Type} (d : Dict α) (k : String) : Dict α :=
  d.filter (fun p => ¬ p.1 = k)

/-- Remove each key of `ks` from the dictionary. -/
def Dict.eraseKeys {α : Type} (d : Dict α) (ks : List String) : Dict α :=
  d.filter (fun p => ¬ p.1 ∈ ks)

/-- `d[k] = v`: replace an existing binding of the key, else append. -/
def Dict.insertKV {α : Type} (d : Dict α) (k : String) (v : α) : Dict α :=
  if d.hasKey k then d.map (fun p => if p.1 = k then (k, v) else p)
  else d ++ [(k, v)]

/-- `d.update(e)`: insert each binding of `e` into `d`, left to right. -/
def Dict.mergeKV {α : Type} (d e : Dict α) : Dict α :=
  e.foldl (fun acc p => acc.insertKV p.1 p.2) d

/-!  ## Error taxonomy

The internal validation exceptions (`UnicodeError`, `AccountDataBadType`,
`AccountDataBadLength`, Django's `ValidationError`) and the typed
account errors raised by the validators. -/

/-- An exception raised inside a validation pipeline before the
field-level `except` clause translates it. -/
inductive VErr where
  | unicodeErr (msg : String)
  | badType (msg : String)
  | badLength (msg : String)
  | validationErr (msg : String)
  | passwordInvalid (msg : String)
  deriving Repr, DecidableEq

/-- The typed errors of the account API surface. -/
inductive AccErr where
  | usernameInvalid (msg : String)
  | emailInvalid (msg : String)
  | passwordInvalid (msg : String)
  | usernameAlreadyExists (msg : String)
  | emailAlreadyExists (msg : String)
  | userAlreadyExists
  | userNotFound
  | userNotAuthorized
  | internalError (msg : String)
  deriving Repr, DecidableEq

/-!  ## Message constants

The message texts live in the sub-application's `__init__.py`, which is
outside the embedded file; only their identity matters here, so each is
a distinct opaque-looking literal. -/

def USERNAME_BAD_TYPE_MSG : String := "Username must be a string."
def EMAIL_BAD_TYPE_MSG : String := "Email must be a string."
def PASSWORD_BAD_TYPE_MSG : String := "Password must be a string."
def USERNAME_BAD_LENGTH_MSG : String := "Username length is out of bounds."
def EMAIL_BAD_LENGTH_MSG : String := "Email length is out of bounds."
def PASSWORD_BAD_LENGTH_MSG : String := "Password length is out of bounds."
def PASSWORD_CANT_EQUAL_USERNAME_MSG : String :=
  "Password cannot be the same as the username."
def USERNAME_CONFLICT_MSG : String := "Username conflicts with an existing account."
def EMAIL_CONFLICT_MSG : String := "Email conflicts with an existing account."
def EMAIL_INVALID_MSG : String := "Email format is invalid."
def UNICODE_INVALID_MSG : String := "Input not valid unicode"

/-!  ## Length limits and platform format rules

`USERNAME_MIN_LENGTH` and friends, the platform username pattern
(`student_forms.validate_username`) and Django's `validate_email` live
outside the embedded file; they are parameters. -/

/-- Length bounds and format predicates used by the field validators.
Modelled from the spec: the numeric `*_MIN_LENGTH`/`*_MAX_LENGTH`
constants, the platform username pattern rule and the RFC-shaped email
check are collaborators outside the embedded module; a predicate on the
string stands for each format rule. -/
structure Limits where
  usernameMin : Nat
  usernameMax : Nat
  emailMin : Nat
  emailMax : Nat
  passwordMin : Nat
  passwordMax : Nat
  usernamePatternOk : String → Bool
  emailFormatOk : String → Bool

/-- `len(data)` for the values a validator can receive. -/
def pyLen : PyVal → Nat
  | .str s => s.length
  | .bytes n => n
  | .int _ => 0
  | .strList ss => ss.length

/-- `_validate_unicode(data)`: raises `UnicodeError` unless the value is
a string that decodes. -/
def validate_unicode (data : PyVal) : Except VErr Unit :=
  match data with
  | .str _ => .ok ()
  | _ => .error (.unicodeErr UNICODE_INVALID_MSG)

/-- `_validate_type(data, basestring, err)`: both decodable and
non-decodable byte strings are instances of `basestring`. -/
def validate_type (data : PyVal) (err : String) : Except VErr Unit :=
  match data with
  | .str _ => .ok ()
  | .bytes _ => .ok ()
  | _ => .error (.badType err)

/-- `_validate_length(data, min, max, err)`. -/
def validate_length (data : PyVal) (min max : Nat) (err : String) :
    Except VErr Unit :=
  if pyLen data < min ∨ pyLen data > max then .error (.badLength err) else .ok ()

/-- `student_forms.validate_username(username)` under `override_language('en')`:
raises a `ValidationError` when the platform pattern rejects the name.
Modelled from the spec: the platform username pattern rule is outside
the embedded module. -/
def platform_validate_username (lim : Limits) (username : PyVal) :
    Except VErr Unit :=
  match username with
  | .str s =>
      if lim.usernamePatternOk s then .ok ()
      else .error (.validationErr "Username pattern rejected.")
  | _ => .ok ()

/-- Django's `validate_email(email)`.  Modelled from the spec: the
RFC-shaped email format check is outside the embedded module. -/
def django_validate_email (lim : Limits) (email : PyVal) : Except VErr Unit :=
  match email with
  | .str s =>
      if lim.emailFormatOk s then .ok ()
      else .error (.validationErr EMAIL_INVALID_MSG)
  | _ => .ok ()

/-- The message carried by an internal validation exception. -/
def VErr.message : VErr → String
  | .unicodeErr m => m
  | .badType m => m
  | .badLength m => m
  | .validationErr m => m
  | .passwordInvalid m => m

/-- `_validate_username(username)`: unicode, type, length, then the
platform pattern; the four caught exception kinds become
`AccountUsernameInvalid` carrying the original message. -/
def _validate_username (lim : Limits) (username : PyVal) :
    Except AccErr Unit :=
  match (do
      validate_unicode username
      validate_type username USERNAME_BAD_TYPE_MSG
      validate_length username lim.usernameMin lim.usernameMax USERNAME_BAD_LENGTH_MSG
      platform_validate_username lim username : Except VErr Unit) with
  | .ok _ => .ok ()
  | .error e => .error (.usernameInvalid e.message)

/-- `_validate_email(email)`: unicode, type, length, then the email
format check; caught exceptions become `AccountEmailInvalid`. -/
def _validate_email (lim : Limits) (email : PyVal) : Except AccErr Unit :=
  match (do
      validate_unicode email
      validate_type email EMAIL_BAD_TYPE_MSG
      validate_length email lim.emailMin lim.emailMax EMAIL_BAD_LENGTH_MSG
      django_validate_email lim email : Except VErr Unit) with
  | .ok _ => .ok ()
  | .error e => .error (.emailInvalid e.message)

/-- Python `==` between validator inputs: a non-decodable byte string
never compares equal to a text string. -/
def pyEq : PyVal → Option PyVal → Bool
  | v, some w => v = w
  | _, none => false

/-- `_validate_password_works_with_username(password, username)`:
raises `AccountPasswordInvalid` when they are equal. -/
def _validate_password_works_with_username (password : PyVal)
    (username : Option PyVal) : Except VErr Unit :=
  if pyEq password username then
    .error (.passwordInvalid PASSWORD_CANT_EQUAL_USERNAME_MSG)
  else .ok ()

/-- `_validate_password(password, username)`: type, length, then the
username-equality check.  Note there is no unicode stage; the `except`
clause catches only `AccountDataBadType` and `AccountDataBadLength`,
so the `AccountPasswordInvalid` raised by the equality check passes
through unchanged. -/
def _validate_password (lim : Limits) (password : PyVal)
    (username : Option PyVal) : Except AccErr Unit :=
  match (do
      validate_type password PASSWORD_BAD_TYPE_MSG
      validate_length password lim.passwordMin lim.passwordMax PASSWORD_BAD_LENGTH_MSG
      _validate_password_works_with_username password username : Except VErr Unit) with
  | .ok _ => .ok ()
  | .error (.badType m) => .error (.passwordInvalid m)
  | .error (.badLength m) => .error (.passwordInvalid m)
  | .error (.passwordInvalid m) => .error (.passwordInvalid m)
  | .error e => .error (.internalError e.message)

/-!  ## Stores

The Django model tables as explicit lists (row order is the database
iteration order, i.e. creation order). -/

/-- A `student.models.User` row: the core identity record. -/
structure UserRec where
  username : String
  email : String
  is_active : Bool
  is_staff : Bool
  password_hash : String
  fields : Dict PyVal
  deriving Repr, DecidableEq

/-- A name-change history entry appended to the profile metadata:
old name, textual description of who requested the change, timestamp. -/
structure NameChange where
  old_name : String
  description : String
  timestamp : String
  deriving Repr, DecidableEq

/-- A `student.models.UserProfile` row, keyed by the owning username. -/
structure ProfileRec where
  userId : String
  name : String
  old_names : List NameChange
  language_proficiencies : List String
  fields : Dict PyVal
  deriving Repr, DecidableEq

/-- A `student.models.Registration` row: an activation token. -/
structure RegistrationRec where
  userId : String
  activation_key : String
  activated : Bool
  deriving Repr, DecidableEq

/-- The persistent state: the three model tables. -/
structure Store where
  users : List UserRec
  profiles : List ProfileRec
  registrations : List RegistrationRec
  deriving Repr, DecidableEq

/-- `User.objects.get(username=username)` (usernames are unique). -/
def findUser (st : Store) (username : String) : Option UserRec :=
  st.users.find? (fun u => u.username = username)

/-- `UserProfile.objects.get_or_create(user=...)` default row. -/
def defaultProfile (username : String) : ProfileRec :=
  { userId := username, name := "", old_names := [],
    language_proficiencies := [], fields := [] }

/-- `UserProfile.objects.get_or_create(user=existing_user)`: returns the
profile and the possibly-extended store. -/
def getOrCreateProfile (st : Store) (username : String) :
    ProfileRec × Store :=
  match st.profiles.find? (fun p => p.userId = username) with
  | some p => (p, st)
  | none =>
      let p := defaultProfile username
      (p, { st with profiles := st.profiles ++ [p] })

/-- `_get_user_and_profile(username)`: raises `UserNotFound` when no
identity record matches; otherwise get-or-creates the profile. -/
def _get_user_and_profile (st : Store) (username : String) :
    Option (UserRec × ProfileRec × Store) :=
  match findUser st username with
  | none => none
  | some u =>
      let (p, st1) := getOrCreateProfile st username
      some (u, p, st1)

/-!  ## Existence checkers and `check_account_exists` -/

/-- `_validate_username_doesnt_exist(username)`. -/
def _validate_username_doesnt_exist (st : Store) (username : Option String) :
    Except AccErr Unit :=
  match username with
  | none => .ok ()
  | some u =>
      if st.users.any (fun r => r.username = u) then
        .error (.usernameAlreadyExists USERNAME_CONFLICT_MSG)
      else .ok ()

/-- `_validate_email_doesnt_exist(email)`. -/
def _validate_email_doesnt_exist (st : Store) (email : Option String) :
    Except AccErr Unit :=
  match email with
  | none => .ok ()
  | some e =>
      if st.users.any (fun r => r.email = e) then
        .error (.emailAlreadyExists EMAIL_CONFLICT_MSG)
      else .ok ()

/-- `check_account_exists(username, email)`: probes the email conflict,
then the username conflict, appending the conflicting field names. -/
def check_account_exists (st : Store) (username email : Option String) :
    List String :=
  let conflicts : List String := []
  let conflicts :=
    match _validate_email_doesnt_exist st email with
    | .error _ => conflicts ++ ["email"]
    | .ok _ => conflicts
  let conflicts :=
    match _validate_username_doesnt_exist st username with
    | .error _ => conflicts ++ ["username"]
    | .ok _ => conflicts
  conflicts

/-!  ## Account reader -/

/-- A serialized account view. -/
abbrev AccountView := Dict PyVal

/-- Collaborators of `get_account_settings`.  Modelled from the spec:
`UserReadOnlySerializer` and the `ACCOUNT_VISIBILITY_CONFIGURATION`
setting are outside the embedded module.  `adminFields` is the
configured admin-field superset; `serialize` builds the filtered view of
one account given the custom-field set passed to the serializer. -/
structure ReadEnv where
  adminFields : Option (List String)
  serialize : UserRec → Option (List String) → AccountView

/-- `get_account_settings(request, usernames, configuration, view)`:
defaults the username list, filters the user table by membership,
raises `UserNotFound` when the filter is empty, and serializes each
matching row with the admin-field superset exactly when the viewer has
full access and the view is not `"shared"`. -/
def effectiveUsernames (requesting_user : UserRec) :
    Option (List String) → List String
  | none => [requesting_user.username]
  | some [] => [requesting_user.username]
  | some us => us

def get_account_settings (env : ReadEnv) (st : Store)
    (requesting_user : UserRec) (usernames : Option (List String))
    (view : Option String) : Except AccErr (List AccountView) :=
  let names := effectiveUsernames requesting_user usernames
  let requested_users := st.users.filter (fun u => u.username ∈ names)
  if requested_users = [] then .error .userNotFound
  else
    .ok (requested_users.map (fun u =>
      let has_full_access :=
        requesting_user.is_staff || requesting_user.username = u.username
      let admin_fields :=
        if has_full_access ∧ view ≠ some "shared" then env.adminFields
        else none
      env.serialize u admin_fields))

/-!  ## Account updater -/

/-- Outcome constructor of `update_account_settings` (raised exception
or normal return). -/
inductive UpdateResult where
  | userNotFound
  | userNotAuthorized
  | validationError (field_errors : Dict FieldErr)
  | updateError (developer_message : String) (user_message : Option String)
  | ok
  deriving Repr, DecidableEq

/-- An emitted side effect that is not a store write. -/
inductive Event where
  | languageChanged (username : String) (old_value : List String) (new_value : PyVal)
  | emailChangeRequested (username : String) (new_email : PyVal)
  deriving Repr, DecidableEq

/-- Collaborators of `update_account_settings`.  Modelled from the spec:
`AccountUserSerializer`, `AccountLegacyProfileSerializer`,
`add_serializer_errors`, `student_views.validate_new_email`,
`update_user_preferences`, `student_views.do_email_change_request` and
the `ALLOW_EMAIL_ADDRESS_CHANGE` feature flag are outside the embedded
module.  The two serializer-error functions give the field-error
entries each record serializer contributes for a cleaned update; the
email functions return the message of the raised `ValueError` on
failure; `prefValidationErrors` returns the `preference_errors` map of
a raised `PreferenceValidationError`. -/
structure UpdateEnv where
  userReadOnlyFields : List String
  profileReadOnlyFields : List String
  userSerializerErrors : Dict PyVal → Dict FieldErr
  profileSerializerErrors : Dict PyVal → Dict FieldErr
  validateNewEmail : UserRec → PyVal → Option String
  prefValidationErrors : PyVal → Option (Dict FieldErr)
  allowEmailAddressChange : Bool
  doEmailChangeRequest : UserRec → PyVal → Option String

/-- The read-only fields among the requested update keys:
`set(update.keys()).intersection(user_ro + profile_ro)`. -/
def readOnlyRequested (env : UpdateEnv) (update : Dict PyVal) : List String :=
  (update.keys.filter (fun k =>
    k ∈ env.userReadOnlyFields ++ env.profileReadOnlyFields)).dedup

/-- The field-error entry recorded for a requested read-only field. -/
def readOnlyFieldErr (field : String) : FieldErr :=
  { developer_message := "This field is not editable via this API",
    user_message := "The " ++ field ++ " field cannot be edited." }

/-- The aggregated field-error map of one update call: read-only
entries, then the identity-record and profile-record serializer errors,
then the new-email validation error.  `update2` is the update with the
email and read-only keys already removed. -/
def buildFieldErrors (env : UpdateEnv) (user : UserRec)
    (roFields : List String) (update2 : Dict PyVal)
    (changing_email : Bool) (new_email : PyVal) : Dict FieldErr :=
  let fe : Dict FieldErr := roFields.map (fun f => (f, readOnlyFieldErr f))
  let fe := fe.mergeKV (env.userSerializerErrors update2)
  let fe := fe.mergeKV (env.profileSerializerErrors update2)
  if changing_email then
    match env.validateNewEmail user new_email with
    | some msg =>
        fe.insertKV "email"
          { developer_message :=
              "Error thrown from validate_new_email: " ++ msg,
            user_message := msg }
    | none => fe
  else fe

/-- `AccountUserSerializer(...).save()`: writes the validated update
values into the identity record's generic fields.  The username, email,
activation flag and credential are not written here: the serializer
declares email read-only (email changes go through the side workflow)
and the username is immutable post-creation. -/
def saveUserSerializer (user : UserRec) (update2 : Dict PyVal) : UserRec :=
  { user with fields := user.fields.mergeKV update2 }

/-- `AccountLegacyProfileSerializer(...).save()`: writes the validated
update values into the profile record; `name` and
`language_proficiencies` are materialized fields of the row. -/
def saveProfileSerializer (profile : ProfileRec) (update2 : Dict PyVal) :
    ProfileRec :=
  let profile :=
    match update2.get? "name" with
    | some (.str n) => { profile with name := n }
    | _ => profile
  let profile :=
    match update2.get? "language_proficiencies" with
    | some (.strList ls) => { profile with language_proficiencies := ls }
    | _ => profile
  { profile with
      fields := profile.fields.mergeKV
        ((update2.eraseKey "name").eraseKey "language_proficiencies") }

/-- Write an identity record back to its table row. -/
def putUser (st : Store) (user : UserRec) : Store :=
  { st with users := st.users.map (fun u =>
      if u.username = user.username then user else u) }

/-- Write a profile record back to its table row. -/
def putProfile (st : Store) (profile : ProfileRec) : Store :=
  { st with profiles := st.profiles.map (fun p =>
      if p.userId = profile.userId then profile else p) }

/-- The validation phase of one update call: the deferred email, the
captured old name, the read-only requested fields, the cleaned update
handed to the serializers, and the aggregated field-error map. -/
structure Prepped where
  changing_email : Bool
  new_email : PyVal
  old_name : Option String
  roFields : List String
  update2 : Dict PyVal
  field_errors : Dict FieldErr

/-- The validation phase of `update_account_settings`: extract the
email (deferred to the side workflow), capture the old name for the
history entry, turn read-only requested fields into field errors and
drop them, and aggregate all field errors. -/
def prepUpdate (env : UpdateEnv) (user : UserRec) (profile : ProfileRec)
    (update0 : Dict PyVal) : Prepped :=
  let changing_email := update0.hasKey "email"
  let new_email := (update0.get? "email").getD (.str "")
  let update1 := update0.eraseKey "email"
  let old_name : Option String :=
    if update1.hasKey "name" then some profile.name else none
  let roFields := readOnlyRequested env update1
  let update2 := update1.eraseKeys roFields
  let field_errors :=
    buildFieldErrors env user roFields update2 changing_email new_email
  ⟨changing_email, new_email, old_name, roFields, update2, field_errors⟩

/-- Step 4 of the persistence phase: when a non-falsy old name was
captured, append a name-change history entry to the profile metadata
and save the profile again. -/
def nameHistoryStep (requesting_username now : String)
    (old_name : Option String) (profile : ProfileRec) (st2 : Store) :
    ProfileRec × Store :=
  match old_name with
  | some oldn =>
      if oldn ≠ "" then
        let p :=
          { profile with old_names := profile.old_names ++
              [({ old_name := oldn,
                  description :=
                    "Name change requested through account API by " ++
                      requesting_username,
                  timestamp := now } : NameChange)] }
        (p, putProfile st2 p)
      else (profile, st2)
  | none => (profile, st2)

/-- `update_account_settings(requesting_user, update, username)`.
`now` is the timestamp used for a name-change history entry.  Returns
the outcome, the final store and the emitted events. -/
def update_account_settings (env : UpdateEnv) (st : Store)
    (requesting_user : UserRec) (update0 : Dict PyVal)
    (usernameOpt : Option String) (now : String) :
    UpdateResult × Store × List Event :=
  let username := usernameOpt.getD requesting_user.username
  match _get_user_and_profile st username with
  | none => (.userNotFound, st, [])
  | some (existing_user, existing_user_profile, st1) =>
    if requesting_user.username ≠ username then (.userNotAuthorized, st1, [])
    else
      let pre := prepUpdate env existing_user existing_user_profile update0
      let changing_email := pre.changing_email
      let new_email := pre.new_email
      let old_name := pre.old_name
      let update2 := pre.update2
      let field_errors := pre.field_errors
      if field_errors ≠ [] then (.validationError field_errors, st1, [])
      else
        -- step 1: save both serializers
        let old_language_proficiencies :=
          existing_user_profile.language_proficiencies
        let user' := saveUserSerializer existing_user update2
        let profile' := saveProfileSerializer existing_user_profile update2
        let st2 := putProfile (putUser st1 user') profile'
        -- step 2: push account_privacy through the preferences subsystem
        match
          (if update2.hasKey "account_privacy" then
            env.prefValidationErrors ((update2.get? "account_privacy").getD (.str ""))
          else none) with
        | some pref_errors => (.validationError pref_errors, st2, [])
        | none =>
          -- step 3: language-proficiency change event
          let events :=
            if update2.hasKey "language_proficiencies" then
              [Event.languageChanged username old_language_proficiencies
                ((update2.get? "language_proficiencies").getD (.str ""))]
            else []
          -- step 4: name-change history entry (falsy old names skipped)
          let (_profile2, st3) :=
            nameHistoryStep requesting_user.username now old_name profile' st2
          -- step 5: the email-change request
          if changing_email then
            if ¬ env.allowEmailAddressChange then
              (.updateError
                "Email address changes have been disabled by the site operators."
                none, st3, events)
            else
              match env.doEmailChangeRequest user' new_email with
              | some msg =>
                  (.updateError
                    ("Error thrown from do_email_change_request: " ++ msg)
                    (some msg), st3, events)
              | none =>
                  (.ok, st3,
                    events ++ [Event.emailChangeRequested username new_email])
          else (.ok, st3, events)

/-!  ## Account creator -/

/-- Outcome constructor of `create_account`: the forbidden response,
a raised typed error, or the activation key. -/
inductive CreateResult where
  | forbidden
  | error (e : AccErr)
  | ok (activation_key : String)
  deriving Repr, DecidableEq

/-- Collaborators of `create_account`.  Modelled from the spec:
`ALLOW_PUBLIC_ACCOUNT_CREATION` resolves through the configuration
provider with the feature-flag default; password hashing is an opaque
platform credential primitive. -/
structure CreateEnv where
  allowPublicAccountCreation : Bool
  hashPassword : String → String

/-- `create_account(username, password, email)`: configuration gate,
the three fail-fast validators in order, then the transactional
creation of the identity row (a uniqueness violation on save raises
`AccountUserAlreadyExists`), the registration row carrying the freshly
generated activation key `newKey`, and the empty profile row. -/
def create_account (cenv : CreateEnv) (lim : Limits) (st : Store)
    (username password email : PyVal) (newKey : String) :
    CreateResult × Store :=
  if ¬ cenv.allowPublicAccountCreation then (.forbidden, st)
  else
    match _validate_username lim username with
    | .error e => (.error e, st)
    | .ok _ =>
      match _validate_password lim password (some username) with
      | .error e => (.error e, st)
      | .ok _ =>
        match _validate_email lim email with
        | .error e => (.error e, st)
        | .ok _ =>
          match username, email with
          | .str uname, .str mail =>
            let pwd := match password with | .str p => p | _ => ""
            if st.users.any (fun r => r.username = uname ∨ r.email = mail) then
              (.error .userAlreadyExists, st)
            else
              let user : UserRec :=
                { username := uname, email := mail, is_active := false,
                  is_staff := false,
                  password_hash := cenv.hashPassword pwd, fields := [] }
              let registration : RegistrationRec :=
                { userId := uname, activation_key := newKey, activated := false }
              let profile := defaultProfile uname
              (.ok newKey,
                { users := st.users ++ [user],
                  profiles := st.profiles ++ [profile],
                  registrations := st.registrations ++ [registration] })
          | _, _ =>
              -- unreachable: both validators enforce decodable strings
              (.error (.internalError "non-string input"), st)

/-!  ## Derived notions used to state the claims -/

/-- A username is taken when some identity record carries it. -/
def usernameTaken (st : Store) : Option String → Bool
  | none => false
  | some u => st.users.any (fun r => r.username = u)

/-- An email is taken when some identity record carries it. -/
def emailTaken (st : Store) : Option String → Bool
  | none => false
  | some e => st.users.any (fun r => r.email = e)

/-- Run an ordered list of validation stages, returning the error of
the first failing stage and skipping every later stage. -/
def runStages : List (Except VErr Unit) → Except VErr Unit
  | [] => .ok ()
  | s :: rest =>
    match s with
    | .error e => .error e
    | .ok _ => runStages rest

/-- The `except` clause of `_validate_username`: every caught exception
becomes `AccountUsernameInvalid` with the original message. -/
def catchAsUsernameInvalid : Except VErr Unit → Except AccErr Unit
  | .ok _ => .ok ()
  | .error e => .error (.usernameInvalid e.message)

/-- The `except` clause of `_validate_email`. -/
def catchAsEmailInvalid : Except VErr Unit → Except AccErr Unit
  | .ok _ => .ok ()
  | .error e => .error (.emailInvalid e.message)

/-- The `except` clause of `_validate_password`: it catches only the
bad-type and bad-length exceptions; the `AccountPasswordInvalid` raised
by the username-equality check passes through unchanged. -/
def catchAsPasswordInvalid : Except VErr Unit → Except AccErr Unit
  | .ok _ => .ok ()
  | .error (.badType m) => .error (.passwordInvalid m)
  | .error (.badLength m) => .error (.passwordInvalid m)
  | .error (.passwordInvalid m) => .error (.passwordInvalid m)
  | .error e => .error (.internalError e.message)

/-- A profile record exists for the given identity. -/
def profileExists (st : Store) (uid : String) : Prop :=
  ∃ p ∈ st.profiles, p.userId = uid

/-!  ## Concrete instances for witnesses and counterexamples -/

/-- Representative length bounds and format rules. -/
def sampleLimits : Limits :=
  { usernameMin := 2, usernameMax := 30,
    emailMin := 3, emailMax := 254,
    passwordMin := 2, passwordMax := 75,
    usernamePatternOk := fun _ => true,
    emailFormatOk := fun s => s.contains '@' }

def alice : UserRec :=
  { username := "alice", email := "alice@example.com", is_active := true,
    is_staff := false, password_hash := "ha", fields := [] }

def bob : UserRec :=
  { username := "bob", email := "bob@example.com", is_active := true,
    is_staff := false, password_hash := "hb", fields := [] }

def aliceProfile : ProfileRec :=
  { userId := "alice", name := "Alice Liddell", old_names := [],
    language_proficiencies := ["en"], fields := [] }

/-- Two identity records in creation order; bob has no profile row. -/
def sampleStore : Store :=
  { users := [alice, bob], profiles := [aliceProfile], registrations := [] }

def emptyStore : Store :=
  { users := [], profiles := [], registrations := [] }

/-- An update environment in which every collaborator succeeds. -/
def benignUpdateEnv : UpdateEnv :=
  { userReadOnlyFields := ["username"],
    profileReadOnlyFields := ["country"],
    userSerializerErrors := fun _ => [],
    profileSerializerErrors := fun _ => [],
    validateNewEmail := fun _ _ => none,
    prefValidationErrors := fun _ => none,
    allowEmailAddressChange := true,
    doEmailChangeRequest := fun _ _ => none }

def sampleFieldErr : FieldErr :=
  { developer_message := "bad value", user_message := "Bad value." }

/-- Environment in which the profile serializer rejects `gender`. -/
def rejectingUpdateEnv : UpdateEnv :=
  { benignUpdateEnv with
      profileSerializerErrors := fun upd =>
        if upd.hasKey "gender" then [("gender", sampleFieldErr)] else [] }

/-- Environment in which the preferences subsystem rejects
`account_privacy`. -/
def prefFailUpdateEnv : UpdateEnv :=
  { benignUpdateEnv with
      prefValidationErrors := fun _ => some [("account_privacy", sampleFieldErr)] }

/-- Environment in which the email-change feature flag is disabled. -/
def emailOffUpdateEnv : UpdateEnv :=
  { benignUpdateEnv with allowEmailAddressChange := false }

/-- A reader environment whose serializer records the username. -/
def sampleReadEnv : ReadEnv :=
  { adminFields := some ["email"],
    serialize := fun u _ => [("username", PyVal.str u.username)] }

def createEnvOn : CreateEnv :=
  { allowPublicAccountCreation := true, hashPassword := fun p => p }

def createEnvOff : CreateEnv :=
  { allowPublicAccountCreation := false, hashPassword := fun p => p }

/-!  ## Helper lemmas -/

theorem email_doesnt_exist_eq (st : Store) (email : Option String) :
    _validate_email_doesnt_exist st email =
      (if emailTaken st email then
        .error (.emailAlreadyExists EMAIL_CONFLICT_MSG) else .ok ()) := by
  cases email <;> simp [_validate_email_doesnt_exist, emailTaken]

theorem username_doesnt_exist_eq (st : Store) (username : Option String) :
    _validate_username_doesnt_exist st username =
      (if usernameTaken st username then
        .error (.usernameAlreadyExists USERNAME_CONFLICT_MSG) else .ok ()) := by
  cases username <;> simp [_validate_username_doesnt_exist, usernameTaken]

theorem doSeq4 (s1 s2 s3 s4 : Except VErr Unit) :
    (do s1; s2; s3; s4 : Except VErr Unit) = runStages [s1, s2, s3, s4] := by
  cases s1 <;> cases s2 <;> cases s3 <;> cases s4 <;> rfl

theorem doSeq3 (s1 s2 s3 : Except VErr Unit) :
    (do s1; s2; s3 : Except VErr Unit) = runStages [s1, s2, s3] := by
  cases s1 <;> cases s2 <;> cases s3 <;> rfl

/-!  ## Claim theorems -/

/-- Claim C3: `check_account_exists` never raises (it is a total
function of the store); it returns the empty list when neither the
username nor the email is taken, and when both conflict it returns
exactly `["email", "username"]`, the email conflict listed first. -/
theorem claim_C3_check_account_exists (st : Store)
    (username email : Option String) :
    (emailTaken st email = false ∧ usernameTaken st username = false →
      check_account_exists st username email = []) ∧
    (emailTaken st email = true ∧ usernameTaken st username = true →
      check_account_exists st username email = ["email", "username"]) := by
  constructor <;> rintro ⟨he, hu⟩ <;>
    simp [check_account_exists, email_doesnt_exist_eq,
      username_doesnt_exist_eq, he, hu]

theorem claim_C3_witness :
    (emailTaken sampleStore (some "ted@example.com") = false ∧
       usernameTaken sampleStore (some "ted") = false ∧
       check_account_exists sampleStore (some "ted") (some "ted@example.com") = []) ∧
    (emailTaken sampleStore (some "bob@example.com") = true ∧
       usernameTaken sampleStore (some "alice") = true ∧
       check_account_exists sampleStore (some "alice") (some "bob@example.com")
         = ["email", "username"]) := by
  refine ⟨⟨by decide, by decide, ?_⟩, ⟨by decide, by decide, ?_⟩⟩
  · exact (claim_C3_check_account_exists sampleStore (some "ted")
      (some "ted@example.com")).1 ⟨by decide, by decide⟩
  · exact (claim_C3_check_account_exists sampleStore (some "alice")
      (some "bob@example.com")).2 ⟨by decide, by decide⟩

/-- Claim C8: with `ALLOW_PUBLIC_ACCOUNT_CREATION` resolving to false,
`create_account` answers with the forbidden response, creates no
identity, registration or profile record (the store is unchanged), and
returns no activation key. -/
theorem claim_C8_creation_disabled (cenv : CreateEnv) (lim : Limits)
    (st : Store) (username password email : PyVal) (newKey : String)
    (h : cenv.allowPublicAccountCreation = false) :
    create_account cenv lim st username password email newKey
      = (.forbidden, st) := by
  simp [create_account, h]

theorem claim_C8_witness :
    createEnvOff.allowPublicAccountCreation = false ∧
    create_account createEnvOff sampleLimits emptyStore (.str "ted")
      (.str "secret99") (.str "ted@example.com") "key1"
      = (.forbidden, emptyStore) :=
  ⟨rfl, claim_C8_creation_disabled createEnvOff sampleLimits emptyStore
    (.str "ted") (.str "secret99") (.str "ted@example.com") "key1" rfl⟩

/-- Claim C5, counterexample: the claim quantifies over every username,
password and email with password equal to username, but when public
account creation is disabled `create_account` answers with the
forbidden response, and when the username itself fails username
validation (here `"a"` is below the 2-character minimum)
`create_account` raises `AccountUsernameInvalid`, not
`AccountPasswordInvalid`. -/
theorem claim_C5_counterexample :
    (create_account createEnvOff sampleLimits emptyStore (.str "a")
        (.str "a") (.str "a@example.com") "key1").1 = .forbidden
    ∧ (create_account createEnvOn sampleLimits emptyStore (.str "a")
        (.str "a") (.str "a@example.com") "key1").1
        = .error (.usernameInvalid USERNAME_BAD_LENGTH_MSG) := by
  constructor <;> rfl

/-- Claim C5 as amended: provided public account creation is enabled
and the username passes username validation, `create_account` with a
password equal to the username fails with an `AccountPasswordInvalid`
error, regardless of whether the password would otherwise satisfy the
length and format checks. -/
theorem claim_C5_password_equals_username (cenv : CreateEnv) (lim : Limits)
    (st : Store) (username email : PyVal) (newKey : String)
    (hallow : cenv.allowPublicAccountCreation = true)
    (huser : _validate_username lim username = .ok ()) :
    ∃ m, (create_account cenv lim st username username email newKey).1
      = .error (.passwordInvalid m) := by
  cases username with
  | str u =>
      have hpw : ∃ m, _validate_password lim (.str u) (some (.str u))
          = .error (.passwordInvalid m) := by
        by_cases h : pyLen (.str u) < lim.passwordMin ∨ pyLen (.str u) > lim.passwordMax
        · refine ⟨PASSWORD_BAD_LENGTH_MSG, ?_⟩
          unfold _validate_password
          rw [doSeq3]
          simp [runStages, validate_type, validate_length, h]
        · refine ⟨PASSWORD_CANT_EQUAL_USERNAME_MSG, ?_⟩
          unfold _validate_password
          rw [doSeq3]
          simp [runStages, validate_type, validate_length, h,
            _validate_password_works_with_username, pyEq]
      rcases hpw with ⟨m, hm⟩
      exact ⟨m, by simp [create_account, hallow, huser, hm]⟩
  | bytes n =>
      exfalso
      unfold _validate_username at huser
      rw [doSeq4] at huser
      simp [runStages, validate_unicode] at huser
  | int k =>
      exfalso
      unfold _validate_username at huser
      rw [doSeq4] at huser
      simp [runStages, validate_unicode] at huser
  | strList ss =>
      exfalso
      unfold _validate_username at huser
      rw [doSeq4] at huser
      simp [runStages, validate_unicode] at huser

theorem claim_C5_witness :
    createEnvOn.allowPublicAccountCreation = true ∧
    _validate_username sampleLimits (.str "teddy") = .ok () ∧
    ∃ m, (create_account createEnvOn sampleLimits emptyStore (.str "teddy")
      (.str "teddy") (.str "ted@example.com") "key1").1
        = .error (.passwordInvalid m) :=
  ⟨rfl, rfl,
    claim_C5_password_equals_username createEnvOn sampleLimits emptyStore
      (.str "teddy") (.str "ted@example.com") "key1" rfl rfl⟩

/-- Claim C6, counterexample: the claim says each of the three
validators runs encoding well-formedness as its first stage; a
non-decodable byte string of valid password length fails the encoding
check yet `_validate_password` accepts it, because the password
validator has no encoding stage. -/
theorem claim_C6_counterexample :
    validate_unicode (.bytes 8) = .error (.unicodeErr UNICODE_INVALID_MSG)
    ∧ _validate_password sampleLimits (.bytes 8) (some (.str "alice"))
        = .ok () := by
  constructor <;> rfl

/-- Claim C6 as amended: the username and email validators run the
ordered pipeline encoding well-formedness, type check, length bounds,
format-specific check; the password validator runs type check, length
bounds, then the username-equality check with no encoding stage.  Each
raises its typed error at the first failing stage and skips all later
stages (`runStages` returns the first failing stage's error). -/
theorem claim_C6_validator_pipelines (lim : Limits) (v : PyVal)
    (u : Option PyVal) :
    _validate_username lim v = catchAsUsernameInvalid (runStages
      [validate_unicode v, validate_type v USERNAME_BAD_TYPE_MSG,
       validate_length v lim.usernameMin lim.usernameMax USERNAME_BAD_LENGTH_MSG,
       platform_validate_username lim v])
    ∧ _validate_email lim v = catchAsEmailInvalid (runStages
      [validate_unicode v, validate_type v EMAIL_BAD_TYPE_MSG,
       validate_length v lim.emailMin lim.emailMax EMAIL_BAD_LENGTH_MSG,
       django_validate_email lim v])
    ∧ _validate_password lim v u = catchAsPasswordInvalid (runStages
      [validate_type v PASSWORD_BAD_TYPE_MSG,
       validate_length v lim.passwordMin lim.passwordMax PASSWORD_BAD_LENGTH_MSG,
       _validate_password_works_with_username v u]) := by
  refine ⟨?_, ?_, ?_⟩
  · unfold _validate_username
    rw [doSeq4]
    cases h : runStages [validate_unicode v, validate_type v USERNAME_BAD_TYPE_MSG,
      validate_length v lim.usernameMin lim.usernameMax USERNAME_BAD_LENGTH_MSG,
      platform_validate_username lim v] <;> simp [catchAsUsernameInvalid]
  · unfold _validate_email
    rw [doSeq4]
    cases h : runStages [validate_unicode v, validate_type v EMAIL_BAD_TYPE_MSG,
      validate_length v lim.emailMin lim.emailMax EMAIL_BAD_LENGTH_MSG,
      django_validate_email lim v] <;> simp [catchAsEmailInvalid]
  · unfold _validate_password
    rw [doSeq3]
    cases h : runStages [validate_type v PASSWORD_BAD_TYPE_MSG,
      validate_length v lim.passwordMin lim.passwordMax PASSWORD_BAD_LENGTH_MSG,
      _validate_password_works_with_username v u] with
    | ok _ => rfl
    | error e => cases e <;> rfl

/-- Claim C7, counterexample: with the user table holding alice then
bob, requesting `["bob", "alice"]` returns the views in table order
(alice first), not input order; and requesting `["alice", "ghost"]`
returns a single view, not one per input username. -/
theorem claim_C7_counterexample :
    get_account_settings sampleReadEnv sampleStore alice
        (some ["bob", "alice"]) none
      = .ok [[("username", PyVal.str "alice")], [("username", PyVal.str "bob")]]
    ∧ get_account_settings sampleReadEnv sampleStore alice
        (some ["alice", "ghost"]) none
      = .ok [[("username", PyVal.str "alice")]] := by
  constructor <;> rfl

/-- Claim C7 as amended: for a non-empty requested username list,
`get_account_settings` raises `UserNotFound` exactly when no requested
username resolves to an existing account; otherwise it returns one
filtered account view per stored account whose username was requested,
in the order those accounts appear in the user table. -/
theorem claim_C7_reader (env : ReadEnv) (st : Store) (ru : UserRec)
    (usernames : List String) (view : Option String)
    (hne : usernames ≠ []) :
    (get_account_settings env st ru (some usernames) view
        = .error .userNotFound ↔ ¬ ∃ u ∈ st.users, u.username ∈ usernames)
    ∧ ((∃ u ∈ st.users, u.username ∈ usernames) →
        get_account_settings env st ru (some usernames) view
          = .ok ((st.users.filter (fun u => u.username ∈ usernames)).map
              (fun u => env.serialize u
                (if (ru.is_staff || ru.username = u.username)
                    ∧ view ≠ some "shared"
                 then env.adminFields else none)))) := by
  cases usernames with
  | nil => exact absurd rfl hne
  | cons a as =>
    by_cases hL : st.users.filter (fun u => u.username ∈ a :: as) = []
    · have hres : get_account_settings env st ru (some (a :: as)) view
          = .error .userNotFound := by
        simp only [get_account_settings, effectiveUsernames]
        rw [if_pos hL]
      have hno : ¬ ∃ u ∈ st.users, u.username ∈ a :: as := by
        simp only [List.filter_eq_nil_iff] at hL
        rintro ⟨u, hu, hmem⟩
        exact hL u hu (by simpa using hmem)
      exact ⟨⟨fun _ => hno, fun _ => hres⟩, fun hex => absurd hex hno⟩
    · have hex : ∃ u ∈ st.users, u.username ∈ a :: as := by
        rcases List.exists_mem_of_ne_nil _ hL with ⟨u, hu⟩
        rw [List.mem_filter] at hu
        exact ⟨u, hu.1, by simpa using hu.2⟩
      have hres : get_account_settings env st ru (some (a :: as)) view
          = .ok ((st.users.filter (fun u => u.username ∈ a :: as)).map
              (fun u => env.serialize u
                (if (ru.is_staff || ru.username = u.username)
                    ∧ view ≠ some "shared"
                 then env.adminFields else none))) := by
        simp only [get_account_settings, effectiveUsernames]
        rw [if_neg hL]
      constructor
      · constructor
        · intro h
          rw [hres] at h
          simp at h
        · intro hno
          exact absurd hex hno
      · intro _
        exact hres

theorem claim_C7_witness :
    (["bob", "alice"] : List String) ≠ [] ∧
    ((get_account_settings sampleReadEnv sampleStore alice
        (some ["bob", "alice"]) none = .error .userNotFound
        ↔ ¬ ∃ u ∈ sampleStore.users, u.username ∈ ["bob", "alice"])
    ∧ ((∃ u ∈ sampleStore.users, u.username ∈ ["bob", "alice"]) →
        get_account_settings sampleReadEnv sampleStore alice
          (some ["bob", "alice"]) none
          = .ok ((sampleStore.users.filter
              (fun u => u.username ∈ ["bob", "alice"])).map
              (fun u => sampleReadEnv.serialize u
                (if (alice.is_staff || alice.username = u.username)
                    ∧ (none : Option String) ≠ some "shared"
                 then sampleReadEnv.adminFields else none))))) :=
  ⟨by decide,
    claim_C7_reader sampleReadEnv sampleStore alice ["bob", "alice"] none
      (by decide)⟩

/-!  ## Dictionary and store lemmas -/

theorem hasKey_iff {α : Type} (d : Dict α) (k : String) :
    d.hasKey k = true ↔ ∃ p ∈ d, p.1 = k := by
  unfold Dict.hasKey
  rw [List.any_eq_true]
  simp

theorem hasKey_insertKV_self {α : Type} (d : Dict α) (k : String) (v : α) :
    (d.insertKV k v).hasKey k = true := by
  rw [hasKey_iff]
  unfold Dict.insertKV
  by_cases h : d.hasKey k
  · rw [if_pos h]
    rcases (hasKey_iff d k).mp h with ⟨p, hp, hpk⟩
    refine ⟨(k, v), ?_, rfl⟩
    rw [List.mem_map]
    exact ⟨p, hp, by simp [hpk]⟩
  · rw [if_neg h]
    exact ⟨(k, v), by simp, rfl⟩

theorem hasKey_insertKV_mono {α : Type} {d : Dict α} {k' : String}
    (k : String) (v : α) (h : d.hasKey k' = true) :
    (d.insertKV k v).hasKey k' = true := by
  rcases (hasKey_iff d k').mp h with ⟨p, hp, hpk⟩
  rw [hasKey_iff]
  unfold Dict.insertKV
  by_cases hk : d.hasKey k
  · rw [if_pos hk]
    by_cases hpkk : p.1 = k
    · refine ⟨(k, v), ?_, ?_⟩
      · rw [List.mem_map]
        exact ⟨p, hp, by simp [hpkk]⟩
      · rw [← hpkk]
        exact hpk
    · refine ⟨p, ?_, hpk⟩
      rw [List.mem_map]
      exact ⟨p, hp, by simp [hpkk]⟩
  · rw [if_neg hk]
    exact ⟨p, List.mem_append_left _ hp, hpk⟩

theorem mergeKV_cons {α : Type} (d : Dict α) (p : String × α) (rest : Dict α) :
    d.mergeKV (p :: rest) = (d.insertKV p.1 p.2).mergeKV rest := rfl

theorem hasKey_mergeKV_left {α : Type} (e : Dict α) {d : Dict α} {k : String}
    (h : d.hasKey k = true) : (d.mergeKV e).hasKey k = true := by
  induction e generalizing d with
  | nil => exact h
  | cons p rest ih =>
      rw [mergeKV_cons]
      exact ih (hasKey_insertKV_mono p.1 p.2 h)

theorem hasKey_mergeKV_right {α : Type} {e : Dict α} (d : Dict α) {k : String}
    (h : e.hasKey k = true) : (d.mergeKV e).hasKey k = true := by
  induction e generalizing d with
  | nil => simp [Dict.hasKey] at h
  | cons p rest ih =>
      rw [mergeKV_cons]
      by_cases hpk : p.1 = k
      · apply hasKey_mergeKV_left
        rw [← hpk]
        exact hasKey_insertKV_self d p.1 p.2
      · apply ih
        rcases (hasKey_iff _ _).mp h with ⟨q, hq, hqk⟩
        rcases List.mem_cons.mp hq with hq1 | hq2
        · exact absurd (hq1 ▸ hqk) hpk
        · exact (hasKey_iff _ _).mpr ⟨q, hq2, hqk⟩

theorem hasKey_of_mem_mapPair {α : Type} (ks : List String) (g : String → α)
    {k : String} (h : k ∈ ks) :
    Dict.hasKey (ks.map (fun f => (f, g f))) k = true := by
  rw [hasKey_iff]
  exact ⟨(k, g k), List.mem_map.mpr ⟨k, h, rfl⟩, rfl⟩

/-- Key coverage of the aggregated field-error map: it has an entry for
every read-only requested field, every field either record serializer
rejects, and the email when the new-email validation fails. -/
theorem buildFieldErrors_keys (env : UpdateEnv) (user : UserRec)
    (roFields : List String) (update2 : Dict PyVal) (changing_email : Bool)
    (new_email : PyVal) :
    (∀ f ∈ roFields,
      (buildFieldErrors env user roFields update2 changing_email new_email).hasKey f
        = true)
    ∧ (∀ f, (env.userSerializerErrors update2).hasKey f = true →
      (buildFieldErrors env user roFields update2 changing_email new_email).hasKey f
        = true)
    ∧ (∀ f, (env.profileSerializerErrors update2).hasKey f = true →
      (buildFieldErrors env user roFields update2 changing_email new_email).hasKey f
        = true)
    ∧ (changing_email = true → env.validateNewEmail user new_email ≠ none →
      (buildFieldErrors env user roFields update2 changing_email
        new_email).hasKey "email" = true) := by
  unfold buildFieldErrors
  cases changing_email with
  | false =>
      refine ⟨?_, ?_, ?_, ?_⟩
      · intro f hf
        exact hasKey_mergeKV_left _
          (hasKey_mergeKV_left _ (hasKey_of_mem_mapPair roFields _ hf))
      · intro f hf
        exact hasKey_mergeKV_left _ (hasKey_mergeKV_right _ hf)
      · intro f hf
        exact hasKey_mergeKV_right _ hf
      · intro hce
        cases hce
  | true =>
      cases hv : env.validateNewEmail user new_email with
      | none =>
          refine ⟨?_, ?_, ?_, ?_⟩
          · intro f hf
            simp only [hv]
            exact hasKey_mergeKV_left _
              (hasKey_mergeKV_left _ (hasKey_of_mem_mapPair roFields _ hf))
          · intro f hf
            simp only [hv]
            exact hasKey_mergeKV_left _ (hasKey_mergeKV_right _ hf)
          · intro f hf
            simp only [hv]
            exact hasKey_mergeKV_right _ hf
          · intro _ hne
            exact absurd rfl hne
      | some msg =>
          refine ⟨?_, ?_, ?_, ?_⟩
          · intro f hf
            simp only [hv]
            exact hasKey_insertKV_mono _ _ (hasKey_mergeKV_left _
              (hasKey_mergeKV_left _ (hasKey_of_mem_mapPair roFields _ hf)))
          · intro f hf
            simp only [hv]
            exact hasKey_insertKV_mono _ _
              (hasKey_mergeKV_left _ (hasKey_mergeKV_right _ hf))
          · intro f hf
            simp only [hv]
            exact hasKey_insertKV_mono _ _ (hasKey_mergeKV_right _ hf)
          · intro _ _
            simp only [hv]
            exact hasKey_insertKV_self _ _ _

theorem getOrCreateProfile_effect (st : Store) (username : String) :
    (getOrCreateProfile st username).2.users = st.users
    ∧ (getOrCreateProfile st username).2.registrations = st.registrations
    ∧ ((getOrCreateProfile st username).2.profiles = st.profiles
       ∨ (getOrCreateProfile st username).2.profiles
           = st.profiles ++ [defaultProfile username]) := by
  unfold getOrCreateProfile
  cases st.profiles.find? (fun p => p.userId = username) <;> simp

theorem getOrCreateProfile_found (st : Store) (username : String) :
    profileExists (getOrCreateProfile st username).2 username
    ∧ ((getOrCreateProfile st username).1).userId = username := by
  unfold getOrCreateProfile
  cases h : st.profiles.find? (fun p => p.userId = username) with
  | some p =>
      have hp := List.find?_some h
      have hmem := List.mem_of_find?_eq_some h
      exact ⟨⟨p, hmem, by simpa using hp⟩, by simpa using hp⟩
  | none =>
      exact ⟨⟨defaultProfile username, by simp, rfl⟩, rfl⟩

theorem putProfile_exists {st : Store} {uid : String} (p : ProfileRec)
    (h : profileExists st uid) : profileExists (putProfile st p) uid := by
  rcases h with ⟨q, hq, hquid⟩
  by_cases hqp : q.userId = p.userId
  · refine ⟨p, List.mem_map.mpr ⟨q, hq, by simp [hqp]⟩, ?_⟩
    rw [← hqp]
    exact hquid
  · exact ⟨q, List.mem_map.mpr ⟨q, hq, by simp [hqp]⟩, hquid⟩

theorem putProfile_mem_self (st : Store) (p : ProfileRec)
    (h : profileExists st p.userId) : p ∈ (putProfile st p).profiles := by
  rcases h with ⟨q, hq, hquid⟩
  exact List.mem_map.mpr ⟨q, hq, by simp [hquid]⟩

theorem saveProfileSerializer_userId (profile : ProfileRec)
    (update2 : Dict PyVal) :
    (saveProfileSerializer profile update2).userId = profile.userId := by
  unfold saveProfileSerializer
  split <;> split <;> rfl

/-- Claim C2, counterexample: the claim promises `UserNotAuthorized`
with no persistence side effects for every target different from the
requester, but a target that does not resolve fails with
`UserNotFound` instead, and a resolving target without a profile row
gets one created (a persisted record) before the authorization check. -/
theorem claim_C2_counterexample :
    (update_account_settings benignUpdateEnv sampleStore alice
        [("name", .str "X")] (some "ghost") "t1").1 = .userNotFound
    ∧ (update_account_settings benignUpdateEnv sampleStore alice
        [("name", .str "X")] (some "bob") "t1").1 = .userNotAuthorized
    ∧ (update_account_settings benignUpdateEnv sampleStore alice
        [("name", .str "X")] (some "bob") "t1").2.1.profiles
        = sampleStore.profiles ++ [defaultProfile "bob"]
    ∧ sampleStore.profiles ++ [defaultProfile "bob"] ≠ sampleStore.profiles := by
  refine ⟨rfl, rfl, rfl, by decide⟩

/-- Claim C2 as amended: for every requesting user, update map and
target username different from the requesting user's username,
`update_account_settings` fails with `UserNotAuthorized` when the
target resolves to an existing identity record (and with `UserNotFound`
when it does not); no identity or registration record is created or
modified, no requested field is persisted, and no event is emitted —
the only possible persistence effect is the get-or-create of a missing
profile row for the target, which runs before the authorization
check. -/
theorem claim_C2_not_authorized (env : UpdateEnv) (st : Store)
    (ru : UserRec) (update0 : Dict PyVal) (target : String) (now : String)
    (hne : ru.username ≠ target) :
    (findUser st target = none →
      update_account_settings env st ru update0 (some target) now
        = (.userNotFound, st, []))
    ∧ (∀ u, findUser st target = some u →
        (update_account_settings env st ru update0 (some target) now).1
            = .userNotAuthorized
        ∧ (update_account_settings env st ru update0 (some target) now).2.1.users
            = st.users
        ∧ (update_account_settings env st ru update0
            (some target) now).2.1.registrations = st.registrations
        ∧ ((update_account_settings env st ru update0
              (some target) now).2.1.profiles = st.profiles
           ∨ (update_account_settings env st ru update0
              (some target) now).2.1.profiles
              = st.profiles ++ [defaultProfile target])
        ∧ (update_account_settings env st ru update0 (some target) now).2.2
            = []) := by
  constructor
  · intro hnone
    have hgp : _get_user_and_profile st target = none := by
      unfold _get_user_and_profile
      rw [hnone]
    simp [update_account_settings, hgp]
  · intro u hu
    rcases hx : getOrCreateProfile st target with ⟨p, st1⟩
    have hgp : _get_user_and_profile st target = some (u, p, st1) := by
      unfold _get_user_and_profile
      rw [hu, hx]
    have hres : update_account_settings env st ru update0 (some target) now
        = (.userNotAuthorized, st1, []) := by
      simp only [update_account_settings, Option.getD_some, hgp]
      rw [if_pos hne]
    have heff := getOrCreateProfile_effect st target
    rw [hx] at heff
    rw [hres]
    exact ⟨rfl, heff.1, heff.2.1, heff.2.2, rfl⟩

theorem claim_C2_witness :
    alice.username ≠ "bob" ∧
    (∀ u, findUser sampleStore "bob" = some u →
      (update_account_settings benignUpdateEnv sampleStore alice
          [("name", .str "X")] (some "bob") "t1").1 = .userNotAuthorized
      ∧ (update_account_settings benignUpdateEnv sampleStore alice
          [("name", .str "X")] (some "bob") "t1").2.1.users
          = sampleStore.users
      ∧ (update_account_settings benignUpdateEnv sampleStore alice
          [("name", .str "X")] (some "bob") "t1").2.1.registrations
          = sampleStore.registrations
      ∧ ((update_account_settings benignUpdateEnv sampleStore alice
            [("name", .str "X")] (some "bob") "t1").2.1.profiles
            = sampleStore.profiles
         ∨ (update_account_settings benignUpdateEnv sampleStore alice
            [("name", .str "X")] (some "bob") "t1").2.1.profiles
            = sampleStore.profiles ++ [defaultProfile "bob"])
      ∧ (update_account_settings benignUpdateEnv sampleStore alice
          [("name", .str "X")] (some "bob") "t1").2.2 = []) :=
  ⟨by decide,
    (claim_C2_not_authorized benignUpdateEnv sampleStore alice
      [("name", .str "X")] "bob" "t1" (by decide)).2⟩

theorem nameHistoryStep_none (rn now : String) (p : ProfileRec) (s : Store) :
    nameHistoryStep rn now none p s = (p, s) := rfl

theorem nameHistoryStep_empty (rn now : String) (p : ProfileRec) (s : Store) :
    nameHistoryStep rn now (some "") p s = (p, s) := rfl

theorem nameHistoryStep_some (rn now oldn : String) (p : ProfileRec)
    (s : Store) (h : oldn ≠ "") :
    nameHistoryStep rn now (some oldn) p s
      = ({ p with old_names := p.old_names ++
            [({ old_name := oldn,
                description :=
                  "Name change requested through account API by " ++ rn,
                timestamp := now } : NameChange)] },
         putProfile s
           { p with old_names := p.old_names ++
              [({ old_name := oldn,
                  description :=
                    "Name change requested through account API by " ++ rn,
                  timestamp := now } : NameChange)] }) := by
  have hstep : nameHistoryStep rn now (some oldn) p s
      = if oldn ≠ "" then
          ({ p with old_names := p.old_names ++
              [({ old_name := oldn,
                  description :=
                    "Name change requested through account API by " ++ rn,
                  timestamp := now } : NameChange)] },
           putProfile s
             { p with old_names := p.old_names ++
                [({ old_name := oldn,
                    description :=
                      "Name change requested through account API by " ++ rn,
                    timestamp := now } : NameChange)] })
        else (p, s) := rfl
  rw [hstep, if_pos h]

theorem nameHistoryStep_exists (rn now : String) (on1 : Option String)
    (p : ProfileRec) (s : Store) {uid : String} (h : profileExists s uid) :
    profileExists (nameHistoryStep rn now on1 p s).2 uid := by
  unfold nameHistoryStep
  split
  · split
    · exact putProfile_exists _ h
    · exact h
  · exact h

/-- Claim C10: every call to `update_account_settings` whose target
username resolves to an existing identity record leaves a profile
record for that identity in the store afterwards — the get-or-create
runs before the authorization and validation checks, so this covers
calls that end in `UserNotAuthorized` or a validation error. -/
theorem claim_C10_profile_guaranteed (env : UpdateEnv) (st : Store)
    (ru : UserRec) (update0 : Dict PyVal) (usernameOpt : Option String)
    (now : String) (u : UserRec)
    (h : findUser st (usernameOpt.getD ru.username) = some u) :
    profileExists (update_account_settings env st ru update0 usernameOpt now).2.1
      (usernameOpt.getD ru.username) := by
  rcases hx : getOrCreateProfile st (usernameOpt.getD ru.username) with ⟨p, st1⟩
  have hgp : _get_user_and_profile st (usernameOpt.getD ru.username)
      = some (u, p, st1) := by
    unfold _get_user_and_profile
    rw [h, hx]
  have hfound := getOrCreateProfile_found st (usernameOpt.getD ru.username)
  rw [hx] at hfound
  obtain ⟨h1, hpuid⟩ := hfound
  simp only [update_account_settings, hgp]
  repeat' split
  all_goals
    first
      | exact h1
      | exact putProfile_exists _ h1
      | exact nameHistoryStep_exists _ _ _ _ _ (putProfile_exists _ h1)

theorem claim_C10_witness :
    findUser sampleStore ((some "bob").getD alice.username) = some bob ∧
    profileExists
      (update_account_settings benignUpdateEnv sampleStore alice
        [("name", .str "X")] (some "bob") "t1").2.1
      ((some "bob").getD alice.username) :=
  ⟨rfl,
    claim_C10_profile_guaranteed benignUpdateEnv sampleStore alice
      [("name", .str "X")] (some "bob") "t1" bob rfl⟩

/-- Claim C1: when the target user submits an update and any field
error arises during validation (a read-only requested field, a field
rejected by either record serializer, or a failing new-email
validation), the call returns exactly one `AccountValidationError`
whose field-error map has an entry for every failing field, and no
requested field is persisted: the store is left at the get-or-create
point, whose identity records, registrations and (up to the lazily
created default profile) profile records are those of the initial
store, and no event is emitted. -/
theorem claim_C1_validation_rejection (env : UpdateEnv) (st : Store)
    (ru : UserRec) (update0 : Dict PyVal) (usernameOpt : Option String)
    (now : String) (u : UserRec) (pre : Prepped)
    (husr : usernameOpt.getD ru.username = ru.username)
    (hfound : findUser st ru.username = some u)
    (hpre : pre = prepUpdate env u (getOrCreateProfile st ru.username).1 update0)
    (hfe : pre.field_errors ≠ []) :
    update_account_settings env st ru update0 usernameOpt now
        = (.validationError pre.field_errors,
           (getOrCreateProfile st ru.username).2, [])
    ∧ (getOrCreateProfile st ru.username).2.users = st.users
    ∧ (getOrCreateProfile st ru.username).2.registrations = st.registrations
    ∧ ((getOrCreateProfile st ru.username).2.profiles = st.profiles
       ∨ (getOrCreateProfile st ru.username).2.profiles
           = st.profiles ++ [defaultProfile ru.username])
    ∧ (∀ f ∈ pre.roFields, pre.field_errors.hasKey f = true)
    ∧ (∀ f, (env.userSerializerErrors pre.update2).hasKey f = true →
        pre.field_errors.hasKey f = true)
    ∧ (∀ f, (env.profileSerializerErrors pre.update2).hasKey f = true →
        pre.field_errors.hasKey f = true)
    ∧ (pre.changing_email = true → env.validateNewEmail u pre.new_email ≠ none →
        pre.field_errors.hasKey "email" = true) := by
  subst hpre
  have hgp : _get_user_and_profile st ru.username
      = some (u, (getOrCreateProfile st ru.username).1,
          (getOrCreateProfile st ru.username).2) := by
    unfold _get_user_and_profile
    rw [hfound]
  have hres : update_account_settings env st ru update0 usernameOpt now
      = (.validationError
          (prepUpdate env u (getOrCreateProfile st ru.username).1
            update0).field_errors,
         (getOrCreateProfile st ru.username).2, []) := by
    simp only [update_account_settings, husr, hgp]
    rw [if_neg (fun hc : ru.username ≠ ru.username => hc rfl)]
    rw [if_pos hfe]
  have heff := getOrCreateProfile_effect st ru.username
  have hk := buildFieldErrors_keys env u
    (readOnlyRequested env (update0.eraseKey "email"))
    ((update0.eraseKey "email").eraseKeys
      (readOnlyRequested env (update0.eraseKey "email")))
    (update0.hasKey "email") ((update0.get? "email").getD (.str ""))
  exact ⟨hres, heff.1, heff.2.1, heff.2.2, hk.1, hk.2.1, hk.2.2.1, hk.2.2.2⟩

theorem claim_C1_witness :
    ((some "alice" : Option String).getD alice.username = alice.username) ∧
    (findUser sampleStore alice.username = some alice) ∧
    (prepUpdate rejectingUpdateEnv alice
        (getOrCreateProfile sampleStore alice.username).1
        [("username", .str "omega"), ("gender", .str "x")]
      = prepUpdate rejectingUpdateEnv alice
          (getOrCreateProfile sampleStore alice.username).1
          [("username", .str "omega"), ("gender", .str "x")]) ∧
    ((prepUpdate rejectingUpdateEnv alice
        (getOrCreateProfile sampleStore alice.username).1
        [("username", .str "omega"), ("gender", .str "x")]).field_errors ≠ []) ∧
    (update_account_settings rejectingUpdateEnv sampleStore alice
        [("username", .str "omega"), ("gender", .str "x")] (some "alice") "t1"
        = (.validationError
            (prepUpdate rejectingUpdateEnv alice
              (getOrCreateProfile sampleStore alice.username).1
              [("username", .str "omega"), ("gender", .str "x")]).field_errors,
           (getOrCreateProfile sampleStore alice.username).2, [])
      ∧ (getOrCreateProfile sampleStore alice.username).2.users
          = sampleStore.users
      ∧ (getOrCreateProfile sampleStore alice.username).2.registrations
          = sampleStore.registrations
      ∧ ((getOrCreateProfile sampleStore alice.username).2.profiles
            = sampleStore.profiles
         ∨ (getOrCreateProfile sampleStore alice.username).2.profiles
            = sampleStore.profiles ++ [defaultProfile alice.username])
      ∧ (∀ f ∈ (prepUpdate rejectingUpdateEnv alice
            (getOrCreateProfile sampleStore alice.username).1
            [("username", .str "omega"), ("gender", .str "x")]).roFields,
          (prepUpdate rejectingUpdateEnv alice
            (getOrCreateProfile sampleStore alice.username).1
            [("username", .str "omega"), ("gender", .str "x")]).field_errors.hasKey f
            = true)
      ∧ (∀ f, (rejectingUpdateEnv.userSerializerErrors
            (prepUpdate rejectingUpdateEnv alice
              (getOrCreateProfile sampleStore alice.username).1
              [("username", .str "omega"), ("gender", .str "x")]).update2).hasKey f
            = true →
          (prepUpdate rejectingUpdateEnv alice
            (getOrCreateProfile sampleStore alice.username).1
            [("username", .str "omega"), ("gender", .str "x")]).field_errors.hasKey f
            = true)
      ∧ (∀ f, (rejectingUpdateEnv.profileSerializerErrors
            (prepUpdate rejectingUpdateEnv alice
              (getOrCreateProfile sampleStore alice.username).1
              [("username", .str "omega"), ("gender", .str "x")]).update2).hasKey f
            = true →
          (prepUpdate rejectingUpdateEnv alice
            (getOrCreateProfile sampleStore alice.username).1
            [("username", .str "omega"), ("gender", .str "x")]).field_errors.hasKey f
            = true)
      ∧ ((prepUpdate rejectingUpdateEnv alice
            (getOrCreateProfile sampleStore alice.username).1
            [("username", .str "omega"), ("gender", .str "x")]).changing_email = true →
          rejectingUpdateEnv.validateNewEmail alice
            (prepUpdate rejectingUpdateEnv alice
              (getOrCreateProfile sampleStore alice.username).1
              [("username", .str "omega"), ("gender", .str "x")]).new_email ≠ none →
          (prepUpdate rejectingUpdateEnv alice
            (getOrCreateProfile sampleStore alice.username).1
            [("username", .str "omega"),
              ("gender", .str "x")]).field_errors.hasKey "email" = true)) :=
  ⟨rfl, rfl, rfl, by decide,
    claim_C1_validation_rejection rejectingUpdateEnv sampleStore alice
      [("username", .str "omega"), ("gender", .str "x")] (some "alice") "t1"
      alice _ rfl rfl rfl (by decide)⟩

/-- Claim C9: for a validated update including `account_privacy`, when
the preferences subsystem raises a preference validation error, the
call re-raises it as an `AccountValidationError` carrying the
preference field errors; the language-proficiency event, the
name-change history append and the email-change request do not run (no
event is emitted and the final store is exactly the post-step-1
store), while the identity-record and profile-record saves of step 1
remain committed. -/
theorem claim_C9_preference_failure (env : UpdateEnv) (st : Store)
    (ru : UserRec) (update0 : Dict PyVal) (usernameOpt : Option String)
    (now : String) (u : UserRec) (pre : Prepped)
    (prefErrors : Dict FieldErr)
    (husr : usernameOpt.getD ru.username = ru.username)
    (hfound : findUser st ru.username = some u)
    (hpre : pre = prepUpdate env u (getOrCreateProfile st ru.username).1 update0)
    (hfe : pre.field_errors = [])
    (hap : pre.update2.hasKey "account_privacy" = true)
    (hpref : env.prefValidationErrors
        ((pre.update2.get? "account_privacy").getD (.str ""))
      = some prefErrors) :
    update_account_settings env st ru update0 usernameOpt now
      = (.validationError prefErrors,
         putProfile
           (putUser (getOrCreateProfile st ru.username).2
             (saveUserSerializer u pre.update2))
           (saveProfileSerializer (getOrCreateProfile st ru.username).1
             pre.update2),
         []) := by
  subst hpre
  have hgp : _get_user_and_profile st ru.username
      = some (u, (getOrCreateProfile st ru.username).1,
          (getOrCreateProfile st ru.username).2) := by
    unfold _get_user_and_profile
    rw [hfound]
  simp only [update_account_settings, husr, hgp]
  rw [if_neg (fun hc : ru.username ≠ ru.username => hc rfl)]
  rw [if_neg (by simp [hfe])]
  rw [if_pos hap, hpref]

theorem claim_C9_witness :
    ((some "alice" : Option String).getD alice.username = alice.username) ∧
    (findUser sampleStore alice.username = some alice) ∧
    ((prepUpdate prefFailUpdateEnv alice
        (getOrCreateProfile sampleStore alice.username).1
        [("account_privacy", .str "private")]).field_errors = []) ∧
    ((prepUpdate prefFailUpdateEnv alice
        (getOrCreateProfile sampleStore alice.username).1
        [("account_privacy", .str "private")]).update2.hasKey "account_privacy"
      = true) ∧
    (prefFailUpdateEnv.prefValidationErrors
        (((prepUpdate prefFailUpdateEnv alice
            (getOrCreateProfile sampleStore alice.username).1
            [("account_privacy", .str "private")]).update2.get?
          "account_privacy").getD (.str ""))
      = some [("account_privacy", sampleFieldErr)]) ∧
    (update_account_settings prefFailUpdateEnv sampleStore alice
        [("account_privacy", .str "private")] (some "alice") "t1"
      = (.validationError [("account_privacy", sampleFieldErr)],
         putProfile
           (putUser (getOrCreateProfile sampleStore alice.username).2
             (saveUserSerializer alice
               (prepUpdate prefFailUpdateEnv alice
                 (getOrCreateProfile sampleStore alice.username).1
                 [("account_privacy", .str "private")]).update2))
           (saveProfileSerializer
             (getOrCreateProfile sampleStore alice.username).1
             (prepUpdate prefFailUpdateEnv alice
               (getOrCreateProfile sampleStore alice.username).1
               [("account_privacy", .str "private")]).update2),
         [])) :=
  ⟨rfl, rfl, by decide, by decide, rfl,
    claim_C9_preference_failure prefFailUpdateEnv sampleStore alice
      [("account_privacy", .str "private")] (some "alice") "t1" alice _
      [("account_privacy", sampleFieldErr)] rfl rfl rfl (by decide)
      (by decide) rfl⟩

theorem find?_replace (l : List UserRec) (x : UserRec) (key : String)
    (hx : x.username = key)
    (h : (l.find? (fun r => r.username = key)).isSome = true) :
    (l.map (fun r => if r.username = x.username then x else r)).find?
      (fun r => r.username = key) = some x := by
  induction l with
  | nil => simp at h
  | cons a l ih =>
      rw [List.map_cons]
      by_cases ha : a.username = key
      · rw [if_pos (ha.trans hx.symm)]
        exact List.find?_cons_of_pos _ (by simpa using hx)
      · rw [if_neg (fun hc => ha (hc.trans hx))]
        rw [List.find?_cons_of_neg _ (by simpa using ha)]
        rw [List.find?_cons_of_neg _ (by simpa using ha)] at h
        exact ih h

theorem saveProfileSerializer_name (profile : ProfileRec)
    (update2 : Dict PyVal) (n : String)
    (h : update2.get? "name" = some (.str n)) :
    (saveProfileSerializer profile update2).name = n := by
  unfold saveProfileSerializer
  rw [h]
  cases hl : update2.get? "language_proficiencies" with
  | none => rfl
  | some v => cases v <;> rfl

/-- Claim C4: for a validated update that includes an email change,
when the `ALLOW_EMAIL_ADDRESS_CHANGE` feature flag is disabled (and
the preference step raises nothing), the call raises
`AccountUpdateError` for the email step only, the non-email field
changes are persisted (the identity record now carries the
serializer-saved fields and a requested name change is stored on the
profile), and the stored email is unchanged. -/
theorem claim_C4_email_flag_disabled (env : UpdateEnv) (st : Store)
    (ru : UserRec) (update0 : Dict PyVal) (usernameOpt : Option String)
    (now : String) (u : UserRec) (pre : Prepped)
    (husr : usernameOpt.getD ru.username = ru.username)
    (hfound : findUser st ru.username = some u)
    (hpre : pre = prepUpdate env u (getOrCreateProfile st ru.username).1 update0)
    (hemail : update0.hasKey "email" = true)
    (hfe : pre.field_errors = [])
    (hpref : (if pre.update2.hasKey "account_privacy" then
        env.prefValidationErrors
          ((pre.update2.get? "account_privacy").getD (.str ""))
      else none) = none)
    (hflag : env.allowEmailAddressChange = false) :
    (update_account_settings env st ru update0 usernameOpt now).1
        = .updateError
            "Email address changes have been disabled by the site operators."
            none
    ∧ findUser (update_account_settings env st ru update0 usernameOpt now).2.1
        ru.username = some (saveUserSerializer u pre.update2)
    ∧ (saveUserSerializer u pre.update2).email = u.email
    ∧ (∀ n, pre.update2.get? "name" = some (.str n) →
        ∃ q ∈ (update_account_settings env st ru update0
            usernameOpt now).2.1.profiles,
          q.userId = ru.username ∧ q.name = n) := by
  have hgp : _get_user_and_profile st ru.username
      = some (u, (getOrCreateProfile st ru.username).1,
          (getOrCreateProfile st ru.username).2) := by
    unfold _get_user_and_profile
    rw [hfound]
  have hemail2 : pre.changing_email = true := by
    rw [hpre]
    exact hemail
  have huname : u.username = ru.username := by
    have := List.find?_some hfound
    simpa using this
  have hfind1 : findUser (getOrCreateProfile st ru.username).2 ru.username
      = some u := by
    unfold findUser
    rw [(getOrCreateProfile_effect st ru.username).1]
    exact hfound
  have hsome : (((getOrCreateProfile st ru.username).2.users.find?
      (fun r => r.username = ru.username)).isSome) = true := by
    unfold findUser at hfind1
    rw [hfind1]
    rfl
  have hfindST2 : findUser
      (putProfile (putUser (getOrCreateProfile st ru.username).2
        (saveUserSerializer u pre.update2))
        (saveProfileSerializer (getOrCreateProfile st ru.username).1
          pre.update2)) ru.username
      = some (saveUserSerializer u pre.update2) :=
    find?_replace (getOrCreateProfile st ru.username).2.users
      (saveUserSerializer u pre.update2) ru.username huname hsome
  have hPRuid : (saveProfileSerializer (getOrCreateProfile st ru.username).1
      pre.update2).userId = ru.username := by
    rw [saveProfileSerializer_userId]
    exact (getOrCreateProfile_found st ru.username).2
  have hexPR : (saveProfileSerializer (getOrCreateProfile st ru.username).1
      pre.update2) ∈
      (putProfile (putUser (getOrCreateProfile st ru.username).2
        (saveUserSerializer u pre.update2))
        (saveProfileSerializer (getOrCreateProfile st ru.username).1
          pre.update2)).profiles := by
    apply putProfile_mem_self
    rw [hPRuid]
    exact (getOrCreateProfile_found st ru.username).1
  rcases hon : pre.old_name with _ | oldn
  · have hres : update_account_settings env st ru update0 usernameOpt now
        = (.updateError
            "Email address changes have been disabled by the site operators."
            none,
           putProfile (putUser (getOrCreateProfile st ru.username).2
             (saveUserSerializer u pre.update2))
             (saveProfileSerializer (getOrCreateProfile st ru.username).1
               pre.update2),
           if pre.update2.hasKey "language_proficiencies" then
             [Event.languageChanged ru.username
               ((getOrCreateProfile st ru.username).1).language_proficiencies
               ((pre.update2.get? "language_proficiencies").getD (.str ""))]
           else []) := by
      simp only [update_account_settings, husr, hgp]
      rw [← hpre]
      rw [if_neg (fun hc : ru.username ≠ ru.username => hc rfl)]
      rw [if_neg (by simp [hfe])]
      rw [hpref]
      rw [hon]
      rw [nameHistoryStep_none]
      rw [if_pos hemail2]
      rw [if_pos (by simp [hflag])]
    rw [hres]
    refine ⟨rfl, hfindST2, rfl, ?_⟩
    intro n hn
    exact ⟨_, hexPR, hPRuid, saveProfileSerializer_name _ _ n hn⟩
  · by_cases hoe : oldn = ""
    · subst hoe
      have hres : update_account_settings env st ru update0 usernameOpt now
          = (.updateError
              "Email address changes have been disabled by the site operators."
              none,
             putProfile (putUser (getOrCreateProfile st ru.username).2
               (saveUserSerializer u pre.update2))
               (saveProfileSerializer (getOrCreateProfile st ru.username).1
                 pre.update2),
             if pre.update2.hasKey "language_proficiencies" then
               [Event.languageChanged ru.username
                 ((getOrCreateProfile st ru.username).1).language_proficiencies
                 ((pre.update2.get? "language_proficiencies").getD (.str ""))]
             else []) := by
        simp only [update_account_settings, husr, hgp]
        rw [← hpre]
        rw [if_neg (fun hc : ru.username ≠ ru.username => hc rfl)]
        rw [if_neg (by simp [hfe])]
        rw [hpref]
        rw [hon]
        rw [nameHistoryStep_empty]
        rw [if_pos hemail2]
        rw [if_pos (by simp [hflag])]
      rw [hres]
      refine ⟨rfl, hfindST2, rfl, ?_⟩
      intro n hn
      exact ⟨_, hexPR, hPRuid, saveProfileSerializer_name _ _ n hn⟩
    · have hres : update_account_settings env st ru update0 usernameOpt now
          = (.updateError
              "Email address changes have been disabled by the site operators."
              none,
             putProfile
               (putProfile (putUser (getOrCreateProfile st ru.username).2
                 (saveUserSerializer u pre.update2))
                 (saveProfileSerializer (getOrCreateProfile st ru.username).1
                   pre.update2))
               { saveProfileSerializer (getOrCreateProfile st ru.username).1
                   pre.update2 with
                 old_names := (saveProfileSerializer
                     (getOrCreateProfile st ru.username).1
                     pre.update2).old_names ++
                   [({ old_name := oldn,
                       description :=
                         "Name change requested through account API by " ++
                           ru.username,
                       timestamp := now } : NameChange)] },
             if pre.update2.hasKey "language_proficiencies" then
               [Event.languageChanged ru.username
                 ((getOrCreateProfile st ru.username).1).language_proficiencies
                 ((pre.update2.get? "language_proficiencies").getD (.str ""))]
             else []) := by
        simp only [update_account_settings, husr, hgp]
        rw [← hpre]
        rw [if_neg (fun hc : ru.username ≠ ru.username => hc rfl)]
        rw [if_neg (by simp [hfe])]
        rw [hpref]
        rw [hon]
        rw [nameHistoryStep_some _ _ _ _ _ hoe]
        rw [if_pos hemail2]
        rw [if_pos (by simp [hflag])]
      rw [hres]
      refine ⟨rfl, hfindST2, rfl, ?_⟩
      intro n hn
      have hPNuid : ({ saveProfileSerializer
          (getOrCreateProfile st ru.username).1 pre.update2 with
            old_names := (saveProfileSerializer
                (getOrCreateProfile st ru.username).1 pre.update2).old_names ++
              [({ old_name := oldn,
                  description :=
                    "Name change requested through account API by " ++
                      ru.username,
                  timestamp := now } : NameChange)] } : ProfileRec).userId
          = ru.username := hPRuid
      refine ⟨_, putProfile_mem_self _ _ ?_, hPNuid,
        saveProfileSerializer_name _ _ n hn⟩
      rw [hPNuid]
      exact putProfile_exists _ ((getOrCreateProfile_found st ru.username).1)

theorem claim_C4_witness :
    ((none : Option String).getD alice.username = alice.username) ∧
    (findUser sampleStore alice.username = some alice) ∧
    (Dict.hasKey [("name", PyVal.str "Alice Kingsleigh"),
        ("email", PyVal.str "new@example.com")] "email" = true) ∧
    ((prepUpdate emailOffUpdateEnv alice
        (getOrCreateProfile sampleStore alice.username).1
        [("name", PyVal.str "Alice Kingsleigh"),
          ("email", PyVal.str "new@example.com")]).field_errors = []) ∧
    ((if (prepUpdate emailOffUpdateEnv alice
          (getOrCreateProfile sampleStore alice.username).1
          [("name", PyVal.str "Alice Kingsleigh"),
            ("email", PyVal.str "new@example.com")]).update2.hasKey
          "account_privacy" then
        emailOffUpdateEnv.prefValidationErrors
          (((prepUpdate emailOffUpdateEnv alice
              (getOrCreateProfile sampleStore alice.username).1
              [("name", PyVal.str "Alice Kingsleigh"),
                ("email", PyVal.str "new@example.com")]).update2.get?
            "account_privacy").getD (.str ""))
      else none) = none) ∧
    (emailOffUpdateEnv.allowEmailAddressChange = false) ∧
    ((update_account_settings emailOffUpdateEnv sampleStore alice
        [("name", PyVal.str "Alice Kingsleigh"),
          ("email", PyVal.str "new@example.com")] none "t1").1
      = .updateError
          "Email address changes have been disabled by the site operators."
          none
    ∧ findUser (update_account_settings emailOffUpdateEnv sampleStore alice
        [("name", PyVal.str "Alice Kingsleigh"),
          ("email", PyVal.str "new@example.com")] none "t1").2.1
        alice.username
      = some (saveUserSerializer alice
          (prepUpdate emailOffUpdateEnv alice
            (getOrCreateProfile sampleStore alice.username).1
            [("name", PyVal.str "Alice Kingsleigh"),
              ("email", PyVal.str "new@example.com")]).update2)
    ∧ (saveUserSerializer alice
        (prepUpdate emailOffUpdateEnv alice
          (getOrCreateProfile sampleStore alice.username).1
          [("name", PyVal.str "Alice Kingsleigh"),
            ("email", PyVal.str "new@example.com")]).update2).email
        = alice.email
    ∧ (∀ n, (prepUpdate emailOffUpdateEnv alice
          (getOrCreateProfile sampleStore alice.username).1
          [("name", PyVal.str "Alice Kingsleigh"),
            ("email", PyVal.str "new@example.com")]).update2.get? "name"
          = some (.str n) →
        ∃ q ∈ (update_account_settings emailOffUpdateEnv sampleStore alice
            [("name", PyVal.str "Alice Kingsleigh"),
              ("email", PyVal.str "new@example.com")] none
            "t1").2.1.profiles,
          q.userId = alice.username ∧ q.name = n)) :=
  ⟨rfl, rfl, rfl, by decide, rfl, rfl,
    claim_C4_email_flag_disabled emailOffUpdateEnv sampleStore alice
      [("name", PyVal.str "Alice Kingsleigh"),
        ("email", PyVal.str "new@example.com")] none "t1" alice _ rfl rfl rfl
      rfl (by decide) rfl rfl⟩

end AccountsApi
